import Mathlib

/-!
Shallow embedding of the Adventure Quest combat engine
(`src/combat_system.py`, `src/player_module.py`).

Python integers are modelled as `ℤ`; Python floats (random rolls, drop
chances, multipliers) are modelled as `ℚ`; `random.*` draws are passed in
explicitly as oracle inputs.  Python object identity inside an encounter is
modelled by list indices into the encounter's `players` / `enemies` lists.
-/

namespace AdventureQuest

/-- Truncation toward zero of a rational, the semantics of Python's `int(x)`
applied to a float. -/
def pyInt (q : ℚ) : ℤ := if q < 0 then -⌊-q⌋ else ⌊q⌋

/-- Data of one player skill, per `player_module.Player._get_class_skills`
(the cosmetic `description` string is omitted). -/
structure Skill where
  damage_multiplier : ℚ
  mana_cost : ℤ
  level_requirement : ℤ
deriving DecidableEq

/-- An item payload; the combat engine treats item dictionaries opaquely and
only ever reads their `name`. -/
structure Item where
  name : String
deriving DecidableEq

/-- State of `player_module.Player` that the combat engine reads or writes. -/
structure Player where
  name : String
  player_class : String
  level : ℤ
  experience : ℤ
  max_health : ℤ
  health : ℤ
  mana : ℤ
  max_mana : ℤ
  attack : ℤ
  defense : ℤ
  speed : ℤ
  inventory : List Item
  gold : ℤ
  skills : List (String × Skill)
deriving DecidableEq

/-- The base skill table of `Player._get_class_skills`. -/
def base_skills : List (String × Skill) :=
  [("Basic Attack", ⟨1, 0, 1⟩)]

/-- The class-specific skill tables of `Player._get_class_skills`. -/
def class_skills (player_class : String) : List (String × Skill) :=
  if player_class = "Warrior" then
    [("Heroic Strike", ⟨3/2, 10, 2⟩), ("Whirlwind", ⟨6/5, 15, 4⟩),
     ("Shield Block", ⟨0, 10, 3⟩)]
  else if player_class = "Mage" then
    [("Fireball", ⟨17/10, 15, 2⟩), ("Frost Nova", ⟨13/10, 20, 3⟩),
     ("Arcane Missiles", ⟨2, 25, 5⟩)]
  else if player_class = "Rogue" then
    [("Backstab", ⟨9/5, 12, 2⟩), ("Vanish", ⟨0, 18, 4⟩),
     ("Poison Strike", ⟨6/5, 15, 3⟩)]
  else if player_class = "Cleric" then
    [("Smite", ⟨3/2, 12, 2⟩), ("Heal", ⟨0, 20, 1⟩),
     ("Holy Shield", ⟨0, 15, 3⟩)]
  else []

/-- `Player._get_class_skills`: the base skills plus the class skills whose
level requirement is met. -/
def get_class_skills (player_class : String) (level : ℤ) : List (String × Skill) :=
  base_skills ++ (class_skills player_class).filter
    (fun s => level ≥ s.2.level_requirement)

/-- `Player.level_up`: bump the level, apply the class stat gains, refill
health and mana, refresh the skill table. -/
def Player.level_up (p : Player) : Player :=
  let p := { p with level := p.level + 1 }
  let p :=
    if p.player_class = "Warrior" then
      { p with max_health := p.max_health + 15, attack := p.attack + 3,
               defense := p.defense + 2, max_mana := p.max_mana + 5 }
    else if p.player_class = "Mage" then
      { p with max_health := p.max_health + 8, attack := p.attack + 2,
               defense := p.defense + 1, max_mana := p.max_mana + 15 }
    else if p.player_class = "Rogue" then
      { p with max_health := p.max_health + 10, attack := p.attack + 4,
               defense := p.defense + 1, max_mana := p.max_mana + 8,
               speed := p.speed + 2 }
    else if p.player_class = "Cleric" then
      { p with max_health := p.max_health + 12, attack := p.attack + 1,
               defense := p.defense + 2, max_mana := p.max_mana + 12 }
    else p
  { p with health := p.max_health, mana := p.max_mana,
           skills := get_class_skills p.player_class p.level }

/-- `Player.gain_experience`: add the experience, level up when the threshold
`level * 100` is reached; returns (leveled_up, updated player). -/
def Player.gain_experience (p : Player) (amount : ℤ) : Bool × Player :=
  let p := { p with experience := p.experience + amount }
  if p.experience ≥ p.level * 100 then (true, p.level_up) else (false, p)

/-- `Player.take_damage`: mitigate by `100 / (100 + defense)`, truncate,
floor the result at a minimum of 1, subtract from health, clamp health
below at 0.  Returns (actual damage, updated player). -/
def Player.take_damage (p : Player) (amount : ℤ) : ℤ × Player :=
  let actual_damage := pyInt ((amount : ℚ) * (100 / (100 + (p.defense : ℚ))))
  let actual_damage := if actual_damage < 1 then 1 else actual_damage
  let health := p.health - actual_damage
  let health := if health < 0 then 0 else health
  (actual_damage, { p with health := health })

/-- `Player.heal`: add the amount to health, clamp above at `max_health`;
returns (actual heal = clamped delta, updated player). -/
def Player.heal (p : Player) (amount : ℤ) : ℤ × Player :=
  let before_heal := p.health
  let health := p.health + amount
  let health := if health > p.max_health then p.max_health else health
  (health - before_heal, { p with health := health })

/-- `Player.use_mana`: deduct the amount when affordable and report success,
otherwise leave mana unchanged and report failure. -/
def Player.use_mana (p : Player) (amount : ℤ) : Bool × Player :=
  if p.mana ≥ amount then (true, { p with mana := p.mana - amount })
  else (false, p)

/-- `Player.is_alive`. -/
def Player.is_alive (p : Player) : Bool := decide (0 < p.health)

/-- One enemy special ability, per `Enemy.add_ability`. -/
structure Ability where
  ability_type : String
  multiplier : ℚ
  chance : ℚ
deriving DecidableEq

/-- State of `combat_system.Enemy` that the engine reads or writes (the
cosmetic message/description fields and the not-yet-wired
resistances/weaknesses are omitted). -/
structure Enemy where
  name : String
  level : ℤ
  max_health : ℤ
  health : ℤ
  attack : ℤ
  defense : ℤ
  experience_reward : ℤ
  gold_reward : ℤ
  item_drop_chance : ℚ
  possible_drops : List (Item × ℚ)
  abilities : List (String × Ability)
deriving DecidableEq

/-- The `Enemy.__init__` stat block for a given name and level. -/
def Enemy.create (name : String) (level : ℤ) : Enemy :=
  { name := name
    level := level
    max_health := 20 + level * 10
    health := 20 + level * 10
    attack := 5 + level * 2
    defense := 2 + level
    experience_reward := 20 + level * 15
    gold_reward := 5 + level * 3
    item_drop_chance := 3/10
    possible_drops := []
    abilities := [] }

/-- `Enemy.take_damage`: identical mitigation formula to the player's. -/
def Enemy.take_damage (e : Enemy) (amount : ℤ) : ℤ × Enemy :=
  let actual_damage := pyInt ((amount : ℚ) * (100 / (100 + (e.defense : ℚ))))
  let actual_damage := if actual_damage < 1 then 1 else actual_damage
  let health := e.health - actual_damage
  let health := if health < 0 then 0 else health
  (actual_damage, { e with health := health })

/-- `Enemy.is_alive`. -/
def Enemy.is_alive (e : Enemy) : Bool := decide (0 < e.health)

/-- `Enemy.get_drops`: roll each entry of `possible_drops` independently
against its own chance; `rolls` supplies one `random.random()` draw per
entry. -/
def Enemy.get_drops (e : Enemy) (rolls : List ℚ) : List Item :=
  (e.possible_drops.zip rolls).filterMap
    (fun pr => if pr.2 < pr.1.2 then some pr.1.1 else none)

/-- The `heal`-kind branch of `Enemy.use_ability`: self-heal by
`int(max_health * multiplier)`, clamped above at `max_health`; returns
(actual heal, updated enemy). -/
def Enemy.heal_ability (e : Enemy) (multiplier : ℚ) : ℤ × Enemy :=
  let heal_amount := pyInt ((e.max_health : ℚ) * multiplier)
  let before_heal := e.health
  let health := e.health + heal_amount
  let health := if health > e.max_health then e.max_health else health
  (health - before_heal, { e with health := health })

/-- Role tag of an initiative entry (`"player"` / `"enemy"` in the source
dictionaries). -/
inductive Role where
  | player
  | enemy
deriving DecidableEq

/-- One entry of the initiative order: the `{"type", "entity", "initiative"}`
dictionary of `Combat.start_combat`; the entity reference is modelled as an
index into the encounter's `players` respectively `enemies` list. -/
structure TurnEntry where
  role : Role
  idx : Nat
  initiative : ℤ
deriving DecidableEq

/-- Combat-log / return-message lines, one constructor per distinct message
shape produced by the engine (the human-readable wording is elided, the
data embedded in each message is kept). -/
inductive Msg where
  | cannotStart
  | combatStart (order : List TurnEntry)
  | combatNotActive
  | notYourTurn
  | attackHit (attacker target : String) (damage : ℤ)
  | defeatedEnemy (target : String)
  | gainedRewards (experience gold : ℤ)
  | leveledUp (level : ℤ)
  | droppedItem (enemy : String) (item : Item)
  | skillNotKnown (skill : String)
  | notEnoughMana (skill : String)
  | skillHit (skill attacker target : String) (damage : ℤ)
  | itemNotImplemented
  | fled
  | fleeFailed
  | invalidAction
  | invalidTarget
  | roundBegins (round : ℤ)
  | alreadyEnded
  | combatEnded (victory : Bool)
deriving DecidableEq

/-- State of a `combat_system.Combat` encounter.  The combat log holds one
entry per `add_to_log` call (a list of message lines; the wall-clock
timestamp prefix is not modelled). -/
structure Combat where
  players : List Player
  enemies : List Enemy
  turn_order : List TurnEntry
  current_turn : Nat
  round_number : ℤ
  is_active : Bool
  combat_log : List (List Msg)
  initiative_order : List TurnEntry
deriving DecidableEq

/-- The oracle inputs consumed by one `player_action` call: the ±20% damage
variation draw, the drop-gate draw, one draw per `possible_drops` entry,
and the flee draw. -/
structure Rolls where
  variation : ℚ
  dropGate : ℚ
  itemRolls : List ℚ
  fleeRoll : ℚ

/-- The fresh encounter produced by `Combat.__init__`. -/
def Combat.init : Combat :=
  { players := []
    enemies := []
    turn_order := []
    current_turn := 0
    round_number := 1
    is_active := false
    combat_log := []
    initiative_order := [] }

/-- `Combat.add_to_log`, sans timestamp. -/
def Combat.add_to_log (c : Combat) (msgs : List Msg) : Combat :=
  { c with combat_log := c.combat_log ++ [msgs] }

/-- Stable insertion of an entry into a descending-sorted list: the entry
goes after every already-placed entry of greater or equal initiative. -/
def insertDesc (x : TurnEntry) : List TurnEntry → List TurnEntry
  | [] => [x]
  | y :: ys => if y.initiative ≥ x.initiative then y :: insertDesc x ys
               else x :: y :: ys

/-- Stable descending sort by initiative, the semantics of Python's stable
`list.sort(key=initiative, reverse=True)`: entries of equal initiative keep
their insertion order. -/
def sortByInitiative (l : List TurnEntry) : List TurnEntry :=
  l.foldl (fun acc x => insertDesc x acc) []

/-- `Combat.start_combat`: reject when either side is absent (no state
change); otherwise activate, reset the round and the log, roll one d20 per
combatant (`pRolls` / `eRolls` supply the draws, players add their speed),
freeze the stable-descending order as the initiative order, copy it as the
turn order, and log the start message. -/
def Combat.start_combat (c : Combat) (pRolls eRolls : List ℤ) : Msg × Combat :=
  if c.players.isEmpty || c.enemies.isEmpty then (.cannotStart, c)
  else
    let c := { c with is_active := true, round_number := 1, combat_log := [] }
    let pEntries := (c.players.zip pRolls).enum.map
      (fun x => { role := Role.player, idx := x.1,
                  initiative := x.2.2 + x.2.1.speed : TurnEntry })
    let eEntries := (c.enemies.zip eRolls).enum.map
      (fun x => { role := Role.enemy, idx := x.1,
                  initiative := x.2.2 : TurnEntry })
    let sorted := sortByInitiative (pEntries ++ eEntries)
    let c := { c with initiative_order := sorted, turn_order := sorted,
                      current_turn := 0 }
    let msg := Msg.combatStart sorted
    (msg, c.add_to_log [msg])

/-- Liveness of the combatant referenced by an initiative entry. -/
def Combat.entityAlive (c : Combat) (t : TurnEntry) : Bool :=
  match t.role with
  | .player => ((c.players[t.idx]?).map Player.is_alive).getD false
  | .enemy => ((c.enemies[t.idx]?).map Enemy.is_alive).getD false

/-- `Combat.rebuild_turn_order`: filter the frozen initiative order down to
the living combatants; reset the pointer to 0 when it falls outside the
rebuilt order. -/
def Combat.rebuild_turn_order (c : Combat) : Combat :=
  let turn_order := c.initiative_order.filter c.entityAlive
  let current_turn := if c.current_turn ≥ turn_order.length then 0
                      else c.current_turn
  { c with turn_order := turn_order, current_turn := current_turn }

/-- `Combat.check_combat_end`. -/
def Combat.check_combat_end (c : Combat) : Bool :=
  let players_alive := c.players.any Player.is_alive
  let enemies_alive := c.enemies.any Enemy.is_alive
  !(players_alive && enemies_alive) || !c.is_active

/-- `Combat.end_combat`: a second call reports "already ended" and changes
nothing; the first call deactivates, reports victory iff any player is
living, and logs the summary. -/
def Combat.end_combat (c : Combat) : List Msg × Combat :=
  if !c.is_active then ([.alreadyEnded], c)
  else
    let c := { c with is_active := false }
    let players_alive := c.players.any Player.is_alive
    let msgs := [Msg.combatEnded players_alive]
    (msgs, c.add_to_log msgs)

/-- The tail of `Combat.player_action` shared by every path that consumes
the turn: advance the pointer modulo the turn-order length; on wraparound
increment the round, announce it, and rebuild the turn order; finally log
the accumulated message and return `(check_combat_end, message)`. -/
def Combat.advance_after_action (c : Combat) (msgs : List Msg) :
    Bool × List Msg × Combat :=
  let current_turn := (c.current_turn + 1) % c.turn_order.length
  if current_turn = 0 then
    let c := { c with current_turn := 0, round_number := c.round_number + 1 }
    let msgs := msgs ++ [Msg.roundBegins c.round_number]
    let c := c.rebuild_turn_order
    let c := c.add_to_log msgs
    (c.check_combat_end, msgs, c)
  else
    let c := Combat.add_to_log { c with current_turn := current_turn } msgs
    (c.check_combat_end, msgs, c)

/-- The defeat-check block of `Combat.player_action` shared by the `attack`
and `skill` branches: when the (already damaged) target is dead, award its
experience (with level-up detection) and gold to the acting player, then
roll once against its `item_drop_chance` and, on success, add every drop
that passes its own roll to the player's inventory. -/
def handle_defeat (player : Player) (target : Enemy) (rolls : Rolls) :
    Player × List Msg :=
  if target.is_alive then (player, [])
  else
    let xp_reward := target.experience_reward
    let gold_reward := target.gold_reward
    let lu_player := player.gain_experience xp_reward
    let player := { lu_player.2 with gold := lu_player.2.gold + gold_reward }
    let msgs := [Msg.defeatedEnemy target.name,
                 Msg.gainedRewards xp_reward gold_reward]
    let msgs := if lu_player.1 then msgs ++ [Msg.leveledUp player.level]
                else msgs
    if rolls.dropGate < target.item_drop_chance then
      let drops := target.get_drops rolls.itemRolls
      if drops.isEmpty then (player, msgs)
      else
        ({ player with inventory := player.inventory ++ drops },
         msgs ++ drops.map (fun it => Msg.droppedItem target.name it))
    else (player, msgs)

/-- Truthiness of the optional `skill_name` argument (Python treats both
`None` and the empty string as falsy). -/
def truthyName : Option String → Bool
  | none => false
  | some s => !s.isEmpty

/-- `Combat.player_action`.  `pIdx` identifies the acting player by index
(Python compares object identity).  Returns `none` where the Python would
raise (turn pointer or looked-up index out of range), otherwise
`some (is_combat_over, message, updated encounter)`. -/
def Combat.player_action (c : Combat) (pIdx : Nat) (action : String)
    (target_index : ℤ) (skill_name : Option String) (rolls : Rolls) :
    Option (Bool × List Msg × Combat) :=
  if !c.is_active then some (true, [.combatNotActive], c)
  else
    match c.turn_order[c.current_turn]? with
    | none => none
    | some cur =>
      if cur.role ≠ Role.player ∨ cur.idx ≠ pIdx then
        some (false, [.notYourTurn], c)
      else
        match c.players[pIdx]? with
        | none => none
        | some player =>
          if 0 ≤ target_index ∧ target_index < (c.enemies.length : ℤ) then
            match c.enemies[target_index.toNat]? with
            | none => none
            | some target =>
              if action = "attack" then
                let attack_value := player.attack
                let damage := pyInt ((attack_value : ℚ) * rolls.variation)
                let dmg_target := target.take_damage damage
                let pl_msgs := handle_defeat player dmg_target.2 rolls
                let msgs := Msg.attackHit player.name target.name dmg_target.1
                              :: pl_msgs.2
                let c := { c with players := c.players.set pIdx pl_msgs.1,
                                  enemies := c.enemies.set target_index.toNat
                                               dmg_target.2 }
                some (c.advance_after_action msgs)
              else if action = "skill" ∧ truthyName skill_name = true then
                let sname := skill_name.getD ""
                match List.lookup sname player.skills with
                | none => some (c.advance_after_action [.skillNotKnown sname])
                | some skill =>
                  let mana_cost := skill.mana_cost
                  if player.mana < mana_cost then
                    some (c.advance_after_action [.notEnoughMana sname])
                  else
                    let player := (player.use_mana mana_cost).2
                    let base_damage := player.attack
                    let damage := pyInt ((base_damage : ℚ) *
                                    skill.damage_multiplier)
                    let dmg_target := target.take_damage damage
                    let pl_msgs := handle_defeat player dmg_target.2 rolls
                    let msgs := Msg.skillHit sname player.name target.name
                                  dmg_target.1 :: pl_msgs.2
                    let c := { c with
                               players := c.players.set pIdx pl_msgs.1,
                               enemies := c.enemies.set target_index.toNat
                                            dmg_target.2 }
                    some (c.advance_after_action msgs)
              else if action = "item" then
                some (c.advance_after_action [.itemNotImplemented])
              else if action = "flee" then
                let player_level := player.level
                let enemy_levels := (c.enemies.map Enemy.level).sum
                let level_diff := (player_level : ℚ) -
                  (enemy_levels : ℚ) / (c.enemies.length : ℚ)
                let flee_chance := 1/2 + level_diff * (5/100)
                if rolls.fleeRoll < flee_chance then
                  some (true, [.fled], { c with is_active := false })
                else
                  some (c.advance_after_action [.fleeFailed])
              else
                some (c.advance_after_action [.invalidAction])
          else
            some (c.advance_after_action [.invalidTarget])

/-! ### Helper lemmas -/

theorem pyInt_eq_floor (q : ℚ) (h : 0 ≤ q) : pyInt q = ⌊q⌋ := by
  rw [pyInt, if_neg (not_lt.mpr h)]

theorem pyInt_nonneg (q : ℚ) (h : 0 ≤ q) : 0 ≤ pyInt q := by
  rw [pyInt_eq_floor q h]
  exact Int.floor_nonneg.mpr h

theorem max_one_pyInt (q : ℚ) : max 1 (pyInt q) = max 1 ⌊q⌋ := by
  rw [pyInt]
  split
  · rename_i h
    have h1 : ⌊q⌋ ≤ 0 := Int.floor_nonpos h.le
    have h2 : 0 ≤ ⌊-q⌋ := Int.floor_nonneg.mpr (by linarith)
    omega
  · rfl

theorem ite_lt_one_eq_max (d : ℤ) : (if d < 1 then 1 else d) = max 1 d := by
  split <;> omega

/-! ### Sample data used by witness theorems -/

/-- A concrete player (no class skills, so that structure equality stays
rational-free). -/
def samplePlayer : Player :=
  { name := "Alice"
    player_class := "Warrior"
    level := 3
    experience := 0
    max_health := 120
    health := 100
    mana := 30
    max_mana := 30
    attack := 15
    defense := 8
    speed := 5
    inventory := []
    gold := 50
    skills := [] }

/-- A concrete enemy. -/
def sampleEnemy : Enemy := Enemy.create "Goblin" 2

/-! ### C2: damage application -/

/-- C2.  For every combatant (player or enemy) in a valid state, a damage
application deals exactly `max 1 ⌊raw * 100 / (100 + defense)⌋` damage (so
always at least 1, however high the defense), decreases health by that
amount clamped below at 0, and afterwards `0 ≤ health ≤ max_health`. -/
theorem take_damage_spec (e : Enemy) (p : Player) (amountE amountP : ℤ)
    (he0 : 0 ≤ e.health) (he1 : e.health ≤ e.max_health)
    (hp0 : 0 ≤ p.health) (hp1 : p.health ≤ p.max_health) :
    ((e.take_damage amountE).1
        = max 1 ⌊(amountE : ℚ) * 100 / (100 + (e.defense : ℚ))⌋ ∧
     1 ≤ (e.take_damage amountE).1 ∧
     (e.take_damage amountE).2.health
        = max 0 (e.health - (e.take_damage amountE).1) ∧
     0 ≤ (e.take_damage amountE).2.health ∧
     (e.take_damage amountE).2.health ≤ e.max_health) ∧
    ((p.take_damage amountP).1
        = max 1 ⌊(amountP : ℚ) * 100 / (100 + (p.defense : ℚ))⌋ ∧
     1 ≤ (p.take_damage amountP).1 ∧
     (p.take_damage amountP).2.health
        = max 0 (p.health - (p.take_damage amountP).1) ∧
     0 ≤ (p.take_damage amountP).2.health ∧
     (p.take_damage amountP).2.health ≤ p.max_health) := by
  have key : ∀ (amount defense : ℤ),
      (if pyInt ((amount : ℚ) * (100 / (100 + (defense : ℚ)))) < 1 then 1
       else pyInt ((amount : ℚ) * (100 / (100 + (defense : ℚ)))))
        = max 1 ⌊(amount : ℚ) * 100 / (100 + (defense : ℚ))⌋ := by
    intro amount defense
    rw [ite_lt_one_eq_max, mul_div_assoc]
    exact max_one_pyInt _
  constructor
  · refine ⟨?_, ?_, ?_, ?_, ?_⟩ <;>
      simp only [Enemy.take_damage]
    · exact key amountE e.defense
    · rw [ite_lt_one_eq_max]; omega
    · have h1 : 1 ≤ max 1 (pyInt ((amountE : ℚ) *
          (100 / (100 + (e.defense : ℚ))))) := le_max_left _ _
      rw [ite_lt_one_eq_max]
      omega
    · rw [ite_lt_one_eq_max]
      split <;> omega
    · rw [ite_lt_one_eq_max]
      have h1 : 1 ≤ max 1 (pyInt ((amountE : ℚ) *
          (100 / (100 + (e.defense : ℚ))))) := le_max_left _ _
      split <;> omega
  · refine ⟨?_, ?_, ?_, ?_, ?_⟩ <;>
      simp only [Player.take_damage]
    · exact key amountP p.defense
    · rw [ite_lt_one_eq_max]; omega
    · have h1 : 1 ≤ max 1 (pyInt ((amountP : ℚ) *
          (100 / (100 + (p.defense : ℚ))))) := le_max_left _ _
      rw [ite_lt_one_eq_max]
      omega
    · rw [ite_lt_one_eq_max]
      split <;> omega
    · rw [ite_lt_one_eq_max]
      have h1 : 1 ≤ max 1 (pyInt ((amountP : ℚ) *
          (100 / (100 + (p.defense : ℚ))))) := le_max_left _ _
      split <;> omega

/-- Witness for C2 at a concrete enemy, player and raw damage. -/
theorem take_damage_spec_witness :
    0 ≤ sampleEnemy.health ∧ sampleEnemy.health ≤ sampleEnemy.max_health ∧
    1 ≤ (sampleEnemy.take_damage 10).1 ∧ 1 ≤ (samplePlayer.take_damage 7).1 :=
  ⟨by decide, by decide,
   (take_damage_spec sampleEnemy samplePlayer 10 7
      (by decide) (by decide) (by decide) (by decide)).1.2.1,
   (take_damage_spec sampleEnemy samplePlayer 10 7
      (by decide) (by decide) (by decide) (by decide)).2.2.1⟩

/-! ### C9: healing -/

/-- C9.  For every combatant in a valid state and every nonnegative heal
amount, the new health is `clamp(health + amount, 0, max_health)` and the
returned actual heal is the clamped delta, never negative; this covers both
`Player.heal` and the heal branch of `Enemy.use_ability` (whose amount is
`int(max_health * multiplier)`). -/
theorem heal_spec (p : Player) (amount : ℤ) (e : Enemy) (multiplier : ℚ)
    (hp0 : 0 ≤ p.health) (hp1 : p.health ≤ p.max_health) (ha : 0 ≤ amount)
    (he0 : 0 ≤ e.health) (he1 : e.health ≤ e.max_health)
    (hm : 0 ≤ multiplier) :
    ((p.heal amount).2.health
        = max 0 (min (p.health + amount) p.max_health) ∧
     (p.heal amount).1 = (p.heal amount).2.health - p.health ∧
     0 ≤ (p.heal amount).1) ∧
    ((e.heal_ability multiplier).2.health
        = max 0 (min (e.health + pyInt ((e.max_health : ℚ) * multiplier))
                     e.max_health) ∧
     (e.heal_ability multiplier).1
        = (e.heal_ability multiplier).2.health - e.health ∧
     0 ≤ (e.heal_ability multiplier).1) := by
  have hea : 0 ≤ pyInt ((e.max_health : ℚ) * multiplier) :=
    pyInt_nonneg _ (mul_nonneg (by exact_mod_cast le_trans he0 he1) hm)
  constructor
  · refine ⟨?_, ?_, ?_⟩ <;>
      (simp only [Player.heal] <;> (split <;> omega))
  · refine ⟨?_, ?_, ?_⟩ <;>
      (simp only [Enemy.heal_ability] <;> (split <;> omega))

/-- Witness for C9 at a concrete player, enemy, amount and multiplier. -/
theorem heal_spec_witness :
    0 ≤ samplePlayer.health ∧ 0 ≤ (samplePlayer.heal 30).1 ∧
    0 ≤ (sampleEnemy.heal_ability (1/10)).1 :=
  ⟨by decide,
   (heal_spec samplePlayer 30 sampleEnemy (1/10) (by decide) (by decide)
      (by decide) (by decide) (by decide) (by norm_num)).1.2.2,
   (heal_spec samplePlayer 30 sampleEnemy (1/10) (by decide) (by decide)
      (by decide) (by decide) (by decide) (by norm_num)).2.2.2⟩

/-! ### C10: mana spending -/

/-- C10.  `use_mana` returns `true` and deducts exactly the amount when
affordable, otherwise returns `false` and leaves mana unchanged; hence mana
never becomes negative through `use_mana`. -/
theorem use_mana_spec (p : Player) (amount : ℤ) (hm : 0 ≤ p.mana) :
    (amount ≤ p.mana →
       p.use_mana amount = (true, { p with mana := p.mana - amount })) ∧
    (p.mana < amount → p.use_mana amount = (false, p)) ∧
    0 ≤ (p.use_mana amount).2.mana := by
  refine ⟨fun h => ?_, fun h => ?_, ?_⟩
  · rw [Player.use_mana, if_pos h]
  · rw [Player.use_mana, if_neg (by omega)]
  · rw [Player.use_mana]
    split
    · rename_i h
      show 0 ≤ p.mana - amount
      omega
    · exact hm

/-- Witness for C10 at a concrete player and amount. -/
theorem use_mana_spec_witness :
    0 ≤ samplePlayer.mana ∧ 10 ≤ samplePlayer.mana ∧
    samplePlayer.use_mana 10
      = (true, { samplePlayer with mana := samplePlayer.mana - 10 }) ∧
    0 ≤ (samplePlayer.use_mana 10).2.mana :=
  ⟨by decide, by decide,
   (use_mana_spec samplePlayer 10 (by decide)).1 (by decide),
   (use_mana_spec samplePlayer 10 (by decide)).2.2⟩

/-- A defeated copy of the sample player. -/
def deadSamplePlayer : Player := { samplePlayer with health := 0 }

/-- A concrete active encounter: one defeated player, one living enemy, the
turn pointer on the enemy's entry. -/
def sampleActiveCombat : Combat :=
  { players := [deadSamplePlayer]
    enemies := [sampleEnemy]
    turn_order := [⟨Role.player, 0, 15⟩, ⟨Role.enemy, 0, 9⟩]
    current_turn := 1
    round_number := 2
    is_active := true
    combat_log := []
    initiative_order := [⟨Role.player, 0, 15⟩, ⟨Role.enemy, 0, 9⟩] }

/-- Concrete oracle draws. -/
def sampleRolls : Rolls :=
  { variation := 1, dropGate := 1, itemRolls := [], fleeRoll := 0 }

/-! ### C8: end_combat idempotence -/

/-- C8.  The first `end_combat` call on an active encounter deactivates it,
reports victory iff any player is living (defeat otherwise), and logs the
summary; every subsequent call returns the already-ended message and
changes nothing, the active flag staying `false`. -/
theorem end_combat_idempotent (c : Combat) (h : c.is_active = true) :
    (c.end_combat).2.is_active = false ∧
    (c.end_combat).1 = [Msg.combatEnded (c.players.any Player.is_alive)] ∧
    (c.end_combat).2.players = c.players ∧
    (c.end_combat).2.enemies = c.enemies ∧
    (c.end_combat).2.combat_log = c.combat_log ++ [(c.end_combat).1] ∧
    (c.end_combat).2.end_combat = ([Msg.alreadyEnded], (c.end_combat).2) := by
  rw [Combat.end_combat, h]
  simp [Combat.end_combat, Combat.add_to_log]

/-- Witness for C8 at a concrete active encounter. -/
theorem end_combat_idempotent_witness :
    sampleActiveCombat.is_active = true ∧
    (sampleActiveCombat.end_combat).2.is_active = false ∧
    (sampleActiveCombat.end_combat).2.end_combat
      = ([Msg.alreadyEnded], (sampleActiveCombat.end_combat).2) :=
  ⟨rfl, (end_combat_idempotent sampleActiveCombat rfl).1,
   (end_combat_idempotent sampleActiveCombat rfl).2.2.2.2.2⟩

/-! ### C5: turn-order rebuild -/

/-- C5.  Every turn-order rebuild produces exactly the subsequence of the
frozen initiative order consisting of the currently-living combatants
(membership iff also in the initiative order and alive, and the result is a
sublist, so survivors are never reordered); the initiative order itself and
the combatant lists are untouched, and the turn pointer is reset to 0
exactly when its old value no longer indexes into the rebuilt sequence. -/
theorem rebuild_turn_order_spec (c : Combat) :
    (c.rebuild_turn_order).turn_order.Sublist c.initiative_order ∧
    (∀ t, t ∈ (c.rebuild_turn_order).turn_order ↔
       t ∈ c.initiative_order ∧ c.entityAlive t = true) ∧
    (c.rebuild_turn_order).initiative_order = c.initiative_order ∧
    (c.rebuild_turn_order).players = c.players ∧
    (c.rebuild_turn_order).enemies = c.enemies ∧
    (c.current_turn < (c.rebuild_turn_order).turn_order.length →
       (c.rebuild_turn_order).current_turn = c.current_turn) ∧
    ((c.rebuild_turn_order).turn_order.length ≤ c.current_turn →
       (c.rebuild_turn_order).current_turn = 0) := by
  simp only [Combat.rebuild_turn_order]
  refine ⟨List.filter_sublist _, fun t => List.mem_filter, trivial, trivial,
    trivial, fun h => ?_, fun h => ?_⟩
  · rw [if_neg (by omega)]
  · rw [if_pos (by omega)]

/-- Witness for C5 at a concrete encounter whose pointer falls outside the
rebuilt order. -/
theorem rebuild_turn_order_spec_witness :
    (sampleActiveCombat.rebuild_turn_order).turn_order.length
        ≤ sampleActiveCombat.current_turn ∧
    (sampleActiveCombat.rebuild_turn_order).current_turn = 0 :=
  ⟨by decide, (rebuild_turn_order_spec sampleActiveCombat).2.2.2.2.2.2
     (by decide)⟩

/-! ### C7: acting out of turn -/

/-- C7.  A `player_action` call by a player who is not the entity at the
current turn-order position is rejected with the not-your-turn result and
returns the encounter state completely unchanged (pointer, round, all
combatants, active flag, log), the encounter remaining active. -/
theorem player_action_not_your_turn (c : Combat) (pIdx : Nat)
    (action : String) (target_index : ℤ) (skill_name : Option String)
    (rolls : Rolls) (cur : TurnEntry)
    (hact : c.is_active = true)
    (hcur : c.turn_order[c.current_turn]? = some cur)
    (hnot : cur.role ≠ Role.player ∨ cur.idx ≠ pIdx) :
    c.player_action pIdx action target_index skill_name rolls
      = some (false, [Msg.notYourTurn], c) ∧
    c.is_active = true := by
  refine ⟨?_, hact⟩
  rw [Combat.player_action, hact]
  simp only [Bool.not_true, Bool.false_eq_true, if_false, hcur]
  rw [if_pos hnot]

/-- Witness for C7: a concrete call while it is an enemy's turn. -/
theorem player_action_not_your_turn_witness :
    sampleActiveCombat.player_action 0 "attack" 0 none sampleRolls
      = some (false, [Msg.notYourTurn], sampleActiveCombat) :=
  (player_action_not_your_turn sampleActiveCombat 0 "attack" 0 none
    sampleRolls ⟨Role.enemy, 0, 9⟩ rfl rfl (by decide)).1

/-! ### C4: start_combat precondition -/

/-- An encounter holding one defeated player and one enemy, not yet
started. -/
def defeatedPartyCombat : Combat :=
  { Combat.init with players := [deadSamplePlayer],
                     enemies := [Enemy.create "Wolf" 1] }

/-- Counterexample to C4 as stated: `start_combat` does not require a
living player — with a party consisting of a single defeated player (and
one enemy) it still succeeds and activates the encounter. -/
theorem start_combat_succeeds_without_living_player :
    (∀ p ∈ defeatedPartyCombat.players, p.is_alive = false) ∧
    (defeatedPartyCombat.start_combat [5] [3]).1 ≠ Msg.cannotStart ∧
    (defeatedPartyCombat.start_combat [5] [3]).2.is_active = true := by
  refine ⟨?_, ?_, ?_⟩ <;> decide

/-- C4 (amended).  `start_combat` succeeds exactly when the player list and
the enemy list are both non-empty — the players need not be living; when
either list is empty it returns the error message and changes no state at
all (the whole encounter state is returned untouched). -/
theorem start_combat_spec (c : Combat) (pRolls eRolls : List ℤ) :
    (c.players = [] ∨ c.enemies = [] →
       c.start_combat pRolls eRolls = (Msg.cannotStart, c)) ∧
    (c.players ≠ [] → c.enemies ≠ [] →
       (c.start_combat pRolls eRolls).1 ≠ Msg.cannotStart ∧
       (c.start_combat pRolls eRolls).2.is_active = true ∧
       (c.start_combat pRolls eRolls).2.round_number = 1 ∧
       (c.start_combat pRolls eRolls).2.players = c.players ∧
       (c.start_combat pRolls eRolls).2.enemies = c.enemies ∧
       (c.start_combat pRolls eRolls).2.current_turn = 0 ∧
       (c.start_combat pRolls eRolls).2.turn_order
         = (c.start_combat pRolls eRolls).2.initiative_order) := by
  constructor
  · intro h
    have he : (c.players.isEmpty || c.enemies.isEmpty) = true := by
      rcases h with h | h <;> simp [h]
    rw [Combat.start_combat, if_pos he]
  · intro h1 h2
    have he : (c.players.isEmpty || c.enemies.isEmpty) = false := by
      simp [List.isEmpty_iff, h1, h2]
    rw [Combat.start_combat, if_neg (by simp [he])]
    refine ⟨by simp, ?_, ?_, ?_, ?_, ?_, ?_⟩ <;> simp [Combat.add_to_log]

/-- Witness for C4 (amended), exercising both the empty-side rejection and
a successful start. -/
theorem start_combat_spec_witness :
    Combat.init.start_combat [] [] = (Msg.cannotStart, Combat.init) ∧
    (defeatedPartyCombat.start_combat [5] [3]).2.is_active = true :=
  ⟨(start_combat_spec Combat.init [] []).1 (Or.inl rfl),
   ((start_combat_spec defeatedPartyCombat [5] [3]).2 (by decide)
      (by decide)).2.1⟩

/-! ### C3: flee -/

/-- The flee success probability as the specification words it:
`0.5 + 0.05 * (player.level − average of all enemy levels)`. -/
def specFleeChance (player_level : ℤ) (enemy_levels : List ℤ) : ℚ :=
  1/2 + 5/100 * ((player_level : ℚ)
    - (enemy_levels.sum : ℚ) / (enemy_levels.length : ℚ))

/-- C3.  For an in-turn player executing `flee`, the random draw is
compared against exactly `0.5 + 0.05 * (level − average enemy level)`: a
successful draw immediately deactivates the encounter and returns the
combat-over flag with everything else (turn pointer included) untouched; a
failed draw leaves the encounter active and advances the pointer by one
modulo the turn-order length. -/
theorem flee_spec (c : Combat) (pIdx : Nat) (i : ℤ) (player : Player)
    (rolls : Rolls)
    (hact : c.is_active = true)
    (hcur : c.turn_order[c.current_turn]? = some ⟨Role.player, pIdx, i⟩)
    (hp : c.players[pIdx]? = some player)
    (hne : 0 < c.enemies.length) :
    (rolls.fleeRoll < specFleeChance player.level (c.enemies.map Enemy.level) →
       c.player_action pIdx "flee" 0 none rolls
         = some (true, [Msg.fled], { c with is_active := false })) ∧
    (specFleeChance player.level (c.enemies.map Enemy.level) ≤ rolls.fleeRoll →
       c.player_action pIdx "flee" 0 none rolls
         = some (c.advance_after_action [Msg.fleeFailed]) ∧
       (c.advance_after_action [Msg.fleeFailed]).2.2.is_active = true ∧
       (c.advance_after_action [Msg.fleeFailed]).2.2.current_turn
         = (c.current_turn + 1) % c.turn_order.length) := by
  have ht : c.enemies[(0:ℤ).toNat]? = some (c.enemies.get ⟨0, hne⟩) :=
    List.getElem?_eq_getElem hne
  have hch : (1:ℚ)/2 + ((player.level : ℚ)
        - (((c.enemies.map Enemy.level).sum : ℚ)) / (c.enemies.length : ℚ))
        * (5/100)
      = specFleeChance player.level (c.enemies.map Enemy.level) := by
    rw [specFleeChance, List.length_map]
    ring
  have hlen : ((0:ℤ) ≤ 0 ∧ (0:ℤ) < (c.enemies.length : ℤ)) :=
    ⟨le_refl 0, by exact_mod_cast hne⟩
  rw [Combat.player_action, hact]
  simp only [Bool.not_true, Bool.false_eq_true, if_false, hcur, hp, ht]
  rw [if_neg (by simp), if_pos hlen]
  constructor
  · intro hroll
    rw [if_neg (by decide), if_neg (by decide), if_neg (by decide),
      if_pos trivial, if_pos (by rw [hch]; exact hroll)]
  · intro hroll
    rw [if_neg (by decide), if_neg (by decide), if_neg (by decide),
      if_pos trivial, if_neg (by rw [hch]; exact not_lt.mpr hroll)]
    refine ⟨rfl, ?_, ?_⟩ <;>
      simp only [Combat.advance_after_action, Combat.rebuild_turn_order,
        Combat.add_to_log]
    · split <;> simp [hact]
    · split
      · rename_i hw
        rw [hw]
        split <;> simp
      · rfl

/-- An active encounter with one living player at the head of the turn
order and one enemy of the player's own level (flee chance exactly 1/2). -/
def fleeCombat : Combat :=
  { players := [samplePlayer]
    enemies := [Enemy.create "Bandit" 3]
    turn_order := [⟨Role.player, 0, 14⟩, ⟨Role.enemy, 0, 6⟩]
    current_turn := 0
    round_number := 1
    is_active := true
    combat_log := []
    initiative_order := [⟨Role.player, 0, 14⟩, ⟨Role.enemy, 0, 6⟩] }

/-- Witness for C3: a draw of 0 beats the 1/2 chance and a draw of 3/4
fails it. -/
theorem flee_spec_witness :
    fleeCombat.player_action 0 "flee" 0 none sampleRolls
      = some (true, [Msg.fled], { fleeCombat with is_active := false }) ∧
    (fleeCombat.player_action 0 "flee" 0 none
        { sampleRolls with fleeRoll := 3/4 }).map
      (fun r => r.2.2.is_active) = some true :=
  ⟨(flee_spec fleeCombat 0 14 samplePlayer sampleRolls rfl rfl rfl
      (by decide)).1
      (by norm_num [specFleeChance, fleeCombat, samplePlayer, Enemy.create,
        sampleRolls]),
   by
    rw [((flee_spec fleeCombat 0 14 samplePlayer
        { sampleRolls with fleeRoll := 3/4 } rfl rfl rfl (by decide)).2
        (by norm_num [specFleeChance, fleeCombat, samplePlayer, Enemy.create,
          sampleRolls])).1]
    simp only [Option.map_some']
    rw [((flee_spec fleeCombat 0 14 samplePlayer
        { sampleRolls with fleeRoll := 3/4 } rfl rfl rfl (by decide)).2
        (by norm_num [specFleeChance, fleeCombat, samplePlayer, Enemy.create,
          sampleRolls])).2.1]⟩

/-! ### C6: rejected actions still consume the turn -/

/-- C6.  For the in-turn player, an out-of-range target index, an unknown
action name, an unknown skill, or insufficient mana each produce only their
rejection message and then run the very same turn-advancement tail as a
successful action (`advance_after_action`); that tail leaves every
combatant and the active flag untouched, advances the pointer by one modulo
the turn-order length, and on wraparound increments the round and rebuilds
the turn order from the frozen initiative order. -/
theorem player_action_error_consumes_turn (c : Combat) (pIdx : Nat) (i : ℤ)
    (player : Player) (rolls : Rolls)
    (hact : c.is_active = true)
    (hcur : c.turn_order[c.current_turn]? = some ⟨Role.player, pIdx, i⟩)
    (hp : c.players[pIdx]? = some player) :
    (∀ action skill_name target_index,
       ¬ (0 ≤ target_index ∧ target_index < (c.enemies.length : ℤ)) →
       c.player_action pIdx action target_index skill_name rolls
         = some (c.advance_after_action [Msg.invalidTarget])) ∧
    (∀ action skill_name target_index,
       0 ≤ target_index → target_index < (c.enemies.length : ℤ) →
       action ≠ "attack" →
       ¬ (action = "skill" ∧ truthyName skill_name = true) →
       action ≠ "item" → action ≠ "flee" →
       c.player_action pIdx action target_index skill_name rolls
         = some (c.advance_after_action [Msg.invalidAction])) ∧
    (∀ sname target_index,
       0 ≤ target_index → target_index < (c.enemies.length : ℤ) →
       sname ≠ "" → List.lookup sname player.skills = none →
       c.player_action pIdx "skill" target_index (some sname) rolls
         = some (c.advance_after_action [Msg.skillNotKnown sname])) ∧
    (∀ sname target_index skill,
       0 ≤ target_index → target_index < (c.enemies.length : ℤ) →
       sname ≠ "" → List.lookup sname player.skills = some skill →
       player.mana < skill.mana_cost →
       c.player_action pIdx "skill" target_index (some sname) rolls
         = some (c.advance_after_action [Msg.notEnoughMana sname])) ∧
    (∀ msgs,
       (c.advance_after_action msgs).2.2.players = c.players ∧
       (c.advance_after_action msgs).2.2.enemies = c.enemies ∧
       (c.advance_after_action msgs).2.2.is_active = c.is_active ∧
       (c.advance_after_action msgs).2.2.current_turn
         = (c.current_turn + 1) % c.turn_order.length ∧
       ((c.current_turn + 1) % c.turn_order.length ≠ 0 →
          (c.advance_after_action msgs).2.2.round_number = c.round_number ∧
          (c.advance_after_action msgs).2.2.turn_order = c.turn_order) ∧
       ((c.current_turn + 1) % c.turn_order.length = 0 →
          (c.advance_after_action msgs).2.2.round_number
            = c.round_number + 1 ∧
          (c.advance_after_action msgs).2.2.turn_order
            = c.initiative_order.filter c.entityAlive)) := by
  refine ⟨?_, ?_, ?_, ?_, ?_⟩
  · intro action skill_name target_index h
    rw [Combat.player_action, hact]
    simp only [Bool.not_true, Bool.false_eq_true, if_false, hcur, hp]
    rw [if_neg (by simp), if_neg h]
  · intro action skill_name target_index h0 h1 ha hs hi hf
    have htlt : target_index.toNat < c.enemies.length := by omega
    have ht : c.enemies[target_index.toNat]? = some (c.enemies.get ⟨target_index.toNat, htlt⟩) :=
      List.getElem?_eq_getElem htlt
    rw [Combat.player_action, hact]
    simp only [Bool.not_true, Bool.false_eq_true, if_false, hcur, hp, ht]
    rw [if_neg (by simp), if_pos ⟨h0, h1⟩, if_neg ha, if_neg hs, if_neg hi,
      if_neg hf]
  · intro sname target_index h0 h1 hsn hlk
    have htlt : target_index.toNat < c.enemies.length := by omega
    have ht : c.enemies[target_index.toNat]? = some (c.enemies.get ⟨target_index.toNat, htlt⟩) :=
      List.getElem?_eq_getElem htlt
    have hne2 : sname.isEmpty = false := by
      cases hse : sname.isEmpty
      · rfl
      · exact absurd ((String.isEmpty_iff sname).mp hse) hsn
    rw [Combat.player_action, hact]
    simp only [Bool.not_true, Bool.false_eq_true, if_false, hcur, hp, ht]
    rw [if_neg (by simp), if_pos ⟨h0, h1⟩, if_neg (by decide),
      if_pos ⟨trivial, by simp [truthyName, hne2]⟩]
    simp only [Option.getD_some, hlk]
  · intro sname target_index skill h0 h1 hsn hlk hmana
    have htlt : target_index.toNat < c.enemies.length := by omega
    have ht : c.enemies[target_index.toNat]? = some (c.enemies.get ⟨target_index.toNat, htlt⟩) :=
      List.getElem?_eq_getElem htlt
    have hne2 : sname.isEmpty = false := by
      cases hse : sname.isEmpty
      · rfl
      · exact absurd ((String.isEmpty_iff sname).mp hse) hsn
    rw [Combat.player_action, hact]
    simp only [Bool.not_true, Bool.false_eq_true, if_false, hcur, hp, ht]
    rw [if_neg (by simp), if_pos ⟨h0, h1⟩, if_neg (by decide),
      if_pos ⟨trivial, by simp [truthyName, hne2]⟩]
    simp only [Option.getD_some, hlk]
    rw [if_pos hmana]
  · intro msgs
    simp only [Combat.advance_after_action, Combat.rebuild_turn_order,
      Combat.add_to_log]
    split
    · rename_i hw
      rw [hw]
      refine ⟨by simp, by simp, by simp, by simp, fun h => absurd rfl h,
        fun _ => ⟨by simp, by rfl⟩⟩
    · rename_i hw
      refine ⟨by simp, by simp, by simp, by simp, fun _ => ⟨by simp, by simp⟩,
        fun h => absurd h hw⟩

/-- Witness for C6: an out-of-range target index at a concrete encounter,
with the pointer advancing by one. -/
theorem player_action_error_consumes_turn_witness :
    fleeCombat.player_action 0 "attack" 5 none sampleRolls
      = some (fleeCombat.advance_after_action [Msg.invalidTarget]) ∧
    (fleeCombat.advance_after_action [Msg.invalidTarget]).2.2.current_turn
      = (fleeCombat.current_turn + 1) % fleeCombat.turn_order.length :=
  ⟨(player_action_error_consumes_turn fleeCombat 0 14 samplePlayer
      sampleRolls rfl rfl rfl).1 "attack" none 5 (by decide),
   ((player_action_error_consumes_turn fleeCombat 0 14 samplePlayer
      sampleRolls rfl rfl rfl).2.2.2.2 [Msg.invalidTarget]).2.2.2.1⟩

/-! ### C1: reward granting on enemy defeat -/

/-- A goblin that was already reduced to zero health earlier in the
encounter. -/
def c1DeadGoblin : Enemy := { Enemy.create "Goblin" 1 with health := 0 }

/-- An active encounter in which enemy 0 is already dead (its rewards were
already granted when it was defeated) while enemy 1 keeps the encounter
going, and it is the player's turn. -/
def c1Combat : Combat :=
  { players := [samplePlayer]
    enemies := [c1DeadGoblin, Enemy.create "Wolf" 2]
    turn_order := [⟨Role.player, 0, 12⟩, ⟨Role.enemy, 1, 7⟩]
    current_turn := 0
    round_number := 1
    is_active := true
    combat_log := []
    initiative_order := [⟨Role.player, 0, 12⟩, ⟨Role.enemy, 1, 7⟩] }

/-- Refutation of C1 on the code (evaluation at the failing input): the
in-turn player attacks the enemy whose health is already 0; the code deals
it minimum damage, sees `not target.is_alive()` and grants the full
experience and gold award (and a fresh drop-gate roll) a second time —
gold goes from 50 to 58 and experience from 0 to 35 for an enemy that was
already down. -/
theorem attack_on_dead_enemy_grants_rewards_again :
    (c1Combat.enemies.map Enemy.health)[0]? = some 0 ∧
    (c1Combat.player_action 0 "attack" 0 none sampleRolls).map
        (fun r => (r.2.1, r.2.2.players.map Player.gold,
                   r.2.2.players.map Player.experience))
      = some ([Msg.attackHit "Alice" "Goblin" 14, Msg.defeatedEnemy "Goblin",
               Msg.gainedRewards 35 8], [58], [35]) := by
  constructor
  · rfl
  · norm_num [c1Combat, c1DeadGoblin, Enemy.create, samplePlayer, sampleRolls,
      Combat.player_action, Combat.advance_after_action, handle_defeat,
      Enemy.take_damage, Player.gain_experience, Enemy.get_drops, pyInt,
      Combat.add_to_log, Combat.check_combat_end, Combat.rebuild_turn_order,
      Combat.entityAlive, truthyName, Player.is_alive, Enemy.is_alive]

end AdventureQuest
